import Mathlib

/-
Verification of the `gf` pattern manager (src/main.rs) against its
natural-language specification.

The program is a one-shot CLI with three modes (list, save, use).  We give a
shallow embedding: the pattern directory is modelled as an association list
from file names to file contents (`none` for a directory that does not
exist), and each branch of `run()` becomes a pure function from the parsed
CLI arguments and the directory state to a new directory state and an
outcome.  JSON serialization of a record is modelled by storing the record
value itself (serde_json::to_writer_pretty is deterministic), and the
fallible write call `serde_json::to_writer_pretty(f, &p)?` is modelled by an
explicit `writeOk` outcome parameter: when the write fails after the
create-exclusive open already created the file, the file is left holding a
strict prefix of the JSON text, which is never a well-formed record, so the
failure branch stores `FileContent.malformed`.
-/

namespace Gf

/-- The persisted pattern record (struct Pattern, src/main.rs lines 12-18):
optional flags, optional single pattern, optional pattern list, optional
engine. -/
structure Pattern where
  flags : Option String
  pattern : Option String
  patterns : Option (List String)
  engine : Option String
deriving DecidableEq, Repr

/-- Content of one file in the pattern directory: a well-formed JSON record,
or bytes that do not decode to a record (hand-made files, or the prefix left
by an interrupted write). -/
inductive FileContent where
  | wellFormed (p : Pattern)
  | malformed
deriving DecidableEq, Repr

/-- The pattern directory: `none` when the directory does not exist,
otherwise its entries (file name, content) in directory-listing order. -/
abbrev PatternDir := Option (List (String × FileContent))

/-- Errors the program reports (each causes exit code 1). -/
inductive GfError where
  | nameEmpty
  | patternEmpty
  | nameRequired
  | alreadyExists (path : String)
  | writeFailed
  | noSuchPattern (name : String)
  | malformedFile (path : String)
  | noPatternContent (path : String)
deriving DecidableEq, Repr

/-- The user-visible message of each error (the anyhow contexts in
src/main.rs). -/
def GfError.message : GfError → String
  | .nameEmpty => "Name cannot be empty"
  | .patternEmpty => "Pattern cannot be empty"
  | .nameRequired => "Pattern name is required"
  | .alreadyExists path =>
      "Failed to create pattern file \x27" ++ path ++ "\x27: file may already exist"
  | .writeFailed => "Failed to write pattern file"
  | .noSuchPattern name => "No such pattern \x27" ++ name ++ "\x27"
  | .malformedFile path => "Pattern file \x27" ++ path ++ "\x27 is malformed"
  | .noPatternContent path => "Pattern file \x27" ++ path ++ "\x27 contains no pattern(s)"

/-- The parsed command line (struct Cli, src/main.rs lines 27-50). -/
structure Cli where
  save : Bool
  list : Bool
  dump : Bool
  name : Option String
  engine : Option String
  args : List String
deriving DecidableEq, Repr

/-- Lookup of a file by name in the directory entries. -/
def lookupFile : List (String × FileContent) → String → Option FileContent
  | [], _ => none
  | e :: rest, fname => if e.fst = fname then some e.snd else lookupFile rest fname

/-- Embedding of save_pattern (src/main.rs lines 176-214).  `writeOk` is the
outcome of the fallible serialization write: the create-exclusive open has
already created the file when the write runs, so a failed write leaves a
malformed file behind. -/
def save_pattern (name flags pat : String) (engine : Option String)
    (writeOk : Bool) (dir : PatternDir) : PatternDir × Option GfError :=
  if name = "" then (dir, some .nameEmpty)
  else if pat = "" then (dir, some .patternEmpty)
  else
    let p : Pattern :=
      { flags := if flags = "" then none else some flags
        pattern := some pat
        patterns := none
        engine := engine }
    let d := dir.getD []
    let fname := name ++ ".json"
    if (lookupFile d fname).isSome then
      (some d, some (.alreadyExists fname))
    else if writeOk then
      (some (d ++ [(fname, .wellFormed p)]), none)
    else
      (some (d ++ [(fname, .malformed)]), some .writeFailed)

/-- Splitting of the file name of a directory entry into stem and extension,
following Rust Path semantics: the extension is what follows the last dot,
provided that dot is not the leading character; a name with no such dot has
no extension. -/
def extSplit (s : String) : String × Option String :=
  let cs := s.toList
  match cs.reverse.findIdx? (fun c => c = '.') with
  | none => (s, none)
  | some j =>
    let i := cs.length - 1 - j
    if i = 0 then (s, none)
    else (String.mk (cs.take i), some (String.mk (cs.drop (i + 1))))

/-- The enumeration loop of get_patterns (src/main.rs lines 229-238): keep
the stem of every entry whose extension is json. -/
def get_patterns_loop : List (String × FileContent) → List String
  | [] => []
  | e :: rest =>
    match extSplit e.fst with
    | (stem, some ext) =>
        if ext = "json" then stem :: get_patterns_loop rest
        else get_patterns_loop rest
    | (_, none) => get_patterns_loop rest

/-- Embedding of get_patterns (src/main.rs lines 217-241): an absent
directory yields the empty list, otherwise the json stems in listing
order. -/
def get_patterns : PatternDir → List String
  | none => []
  | some entries => get_patterns_loop entries

/-- Pattern-string resolution (run(), src/main.rs lines 100-115): the
pattern field as-is when present, otherwise the non-empty patterns list
joined with pipes inside one pair of parentheses, otherwise an error. -/
def resolve_pattern_str (fname : String) (pat : Pattern) : Except GfError String :=
  match pat.pattern with
  | some s => .ok s
  | none =>
    match pat.patterns with
    | some ps =>
      if ps.isEmpty then .error (.noPatternContent fname)
      else .ok ("(" ++ String.intercalate "|" ps ++ ")")
    | none => .error (.noPatternContent fname)

/-- Accumulator loop of splitWs: `cur` holds the characters of the token in
progress, in reverse order. -/
def splitWsAux : List Char → List Char → List String
  | [], cur => if cur.isEmpty then [] else [String.mk cur.reverse]
  | c :: cs, cur =>
    if c.isWhitespace then
      if cur.isEmpty then splitWsAux cs []
      else String.mk cur.reverse :: splitWsAux cs []
    else splitWsAux cs (c :: cur)

/-- Whitespace tokenization as Rust str::split_whitespace: split at runs of
whitespace, producing no empty tokens. -/
def splitWs (s : String) : List String :=
  splitWsAux s.toList []

/-- The flag tokens passed to the engine in execute mode (src/main.rs lines
136-138): none when the record has no flags field. -/
def flagTokens : Option String → List String
  | some f => splitWs f
  | none => []

/-- Rust Debug formatting of one character inside a quoted string: backslash,
quote and the common control characters are escaped, other characters are
modelled as printed verbatim. -/
def rustDebugEscape (c : Char) : String :=
  if c = '\\' then "\\\\"
  else if c = '"' then "\\\""
  else if c = '\n' then "\\n"
  else if c = '\t' then "\\t"
  else if c = '\r' then "\\r"
  else String.mk [c]

/-- Rust Debug formatting of a string: the escaped characters between double
quotes. -/
def rustDebugQuote (s : String) : String :=
  "\"" ++ String.join (s.toList.map rustDebugEscape) ++ "\""

/-- The display string built in dump mode (src/main.rs lines 119-130). -/
def dump_string (operator : String) (flags : Option String)
    (patternStr files : String) : String :=
  let cmd := operator ++ " "
  let cmd :=
    match flags with
    | some f => cmd ++ f ++ " "
    | none => cmd
  cmd ++ rustDebugQuote patternStr ++ " " ++ files

/-- The argument list of the child invocation in execute mode (src/main.rs
lines 134-144): flag tokens, then the pattern, then the files argument
unless stdin is a pipe. -/
def build_args (flags : Option String) (patternStr files : String)
    (stdinIsPipe : Bool) : List String :=
  flagTokens flags ++ [patternStr] ++ (if stdinIsPipe then [] else [files])

/-- Outcome of use mode: either the dump string was printed, or a child
process of the given program with the given arguments was spawned. -/
inductive UseOutcome where
  | dumped (s : String)
  | executed (prog : String) (args : List String)
deriving DecidableEq, Repr

/-- Embedding of the use branch of run() (src/main.rs lines 85-157): resolve
the files argument (defaulting to "."), open and decode the record, resolve
the pattern string and engine, then dump or execute. -/
def run_use (cli : Cli) (stdinIsPipe : Bool) (dir : PatternDir) :
    Except GfError UseOutcome :=
  match cli.name with
  | none => .error .nameRequired
  | some patName =>
    let files := cli.args.head?.getD "."
    let fname := patName ++ ".json"
    match lookupFile (dir.getD []) fname with
    | none => .error (.noSuchPattern patName)
    | some .malformed => .error (.malformedFile fname)
    | some (.wellFormed pat) =>
      match resolve_pattern_str fname pat with
      | .error e => .error e
      | .ok patternStr =>
        let operator := pat.engine.getD "grep"
        if cli.dump then
          .ok (.dumped (dump_string operator pat.flags patternStr files))
        else
          .ok (.executed operator (build_args pat.flags patternStr files stdinIsPipe))

/-- Successful outcome of one invocation of the program. -/
inductive RunOutcome where
  | listed (names : List String)
  | saved
  | used (u : UseOutcome)
deriving DecidableEq, Repr

/-- Embedding of run() (src/main.rs lines 59-158): dispatch on the list,
save and use modes.  The returned directory is the directory state after the
invocation. -/
def run (cli : Cli) (writeOk stdinIsPipe : Bool) (dir : PatternDir) :
    PatternDir × Except GfError RunOutcome :=
  if cli.list then (dir, .ok (.listed (get_patterns dir)))
  else if cli.save then
    match cli.name with
    | none => (dir, .error .nameEmpty)
    | some name =>
      let flags := cli.args.head?.getD ""
      match cli.args.get? 1 with
      | none => (dir, .error .patternEmpty)
      | some pat =>
        let r := save_pattern name flags pat cli.engine writeOk dir
        (r.fst, match r.snd with
                | none => .ok .saved
                | some e => .error e)
  else
    (dir, (run_use cli stdinIsPipe dir).map .used)

/-- Exit code of the program for an outcome of run (main, src/main.rs lines
52-57): 0 on success, 1 on any reported error.  (A non-zero child exit code
in execute mode is propagated by the child wait, outside this model.) -/
def exit_code : Except GfError RunOutcome → Nat
  | .ok _ => 0
  | .error _ => 1

/-! Helper lemmas shared by the claim theorems. -/

/-- Appending a new file at the end of the listing makes it visible under its
name, provided no file of that name was present. -/
theorem lookupFile_append_of_none (d : List (String × FileContent)) (fname : String)
    (c : FileContent) (h : lookupFile d fname = none) :
    lookupFile (d ++ [(fname, c)]) fname = some c := by
  induction d with
  | nil => simp [lookupFile]
  | cons e rest ih =>
    by_cases he : e.fst = fname
    · simp [lookupFile, he] at h
    · simp only [List.cons_append, lookupFile, if_neg he] at h ⊢
      exact ih h

/-- The enumeration loop of get_patterns computes the filterMap of the
stem-of-json-entry selector over the listing. -/
theorem get_patterns_loop_eq_filterMap (entries : List (String × FileContent)) :
    get_patterns_loop entries
      = entries.filterMap (fun e =>
          if (extSplit e.fst).snd = some "json" then some (extSplit e.fst).fst else none) := by
  induction entries with
  | nil => rfl
  | cons e rest ih =>
    rcases hsplit : extSplit e.fst with ⟨stem, ext⟩
    cases ext with
    | none => simp [get_patterns_loop, hsplit, List.filterMap_cons, ih]
    | some x =>
      by_cases hx : x = "json" <;>
        simp [get_patterns_loop, hsplit, List.filterMap_cons, hx, ih]

/-! Claim theorems. -/

/-- Claim C4: for every record in which the pattern field is present, the
resolver uses the pattern field as-is as the final pattern string, even when
the patterns field is also present and non-empty. -/
theorem resolve_pattern_field_precedence (fname s : String) (pat : Pattern)
    (h : pat.pattern = some s) :
    resolve_pattern_str fname pat = .ok s := by
  simp [resolve_pattern_str, h]

/-- Witness for C4: a record with pattern "x" and patterns ["a", "b"]
resolves to "x". -/
theorem resolve_pattern_field_precedence_witness :
    resolve_pattern_str "f.json"
        { flags := none, pattern := some "x", patterns := some ["a", "b"], engine := none }
      = .ok "x" :=
  resolve_pattern_field_precedence "f.json" "x" _ rfl

/-- Claim C5: for every record with no pattern field and a non-empty patterns
sequence, the resolved pattern string is the elements joined with a pipe
separator and wrapped in a single pair of parentheses. -/
theorem resolve_patterns_alternation (fname : String) (pat : Pattern) (ps : List String)
    (h1 : pat.pattern = none) (h2 : pat.patterns = some ps) (h3 : ps ≠ []) :
    resolve_pattern_str fname pat = .ok ("(" ++ String.intercalate "|" ps ++ ")") := by
  simp [resolve_pattern_str, h1, h2, h3]

/-- Witness for C5: patterns ["a", "b", "c"] resolves to exactly
"(a|b|c)". -/
theorem resolve_patterns_alternation_witness :
    resolve_pattern_str "g.json"
        { flags := none, pattern := none, patterns := some ["a", "b", "c"], engine := none }
      = .ok "(a|b|c)" :=
  resolve_patterns_alternation "g.json" _ ["a", "b", "c"] rfl rfl (by decide)

/-- Claim C6: resolution fails with NoPatternContent if and only if the
record has no pattern field and its patterns field is absent or empty; the
error message contains the file path and reads "contains no pattern(s)", and
the error exits with code 1. -/
theorem resolve_no_pattern_content_iff (fname : String) (pat : Pattern) :
    (resolve_pattern_str fname pat = .error (.noPatternContent fname)
      ↔ pat.pattern = none ∧ (pat.patterns = none ∨ pat.patterns = some []))
    ∧ (GfError.noPatternContent fname).message
        = "Pattern file \x27" ++ fname ++ "\x27 contains no pattern(s)"
    ∧ exit_code (.error (.noPatternContent fname)) = 1 := by
  refine ⟨?_, rfl, rfl⟩
  rcases hp : pat.pattern with - | s
  · rcases hps : pat.patterns with - | ps
    · simp [resolve_pattern_str, hp, hps]
    · cases ps with
      | nil => simp [resolve_pattern_str, hp, hps]
      | cons q qs => simp [resolve_pattern_str, hp, hps]
  · simp [resolve_pattern_str, hp]

/-- Witness for C6: a record holding only flags fails to resolve with
NoPatternContent. -/
theorem resolve_no_pattern_content_iff_witness :
    resolve_pattern_str "h.json"
        { flags := some "-Hnri", pattern := none, patterns := none, engine := none }
      = .error (.noPatternContent "h.json") :=
  ((resolve_no_pattern_content_iff "h.json" _).1).mpr ⟨rfl, Or.inl rfl⟩

/-- Counterexample for C1: with name "n" and the single trailing argument
"p" (the flags argument omitted), save does not succeed: it reports
"Pattern cannot be empty", exits 1, and creates no file, because the first
trailing argument is always consumed as the flags and the pattern is read
from the second. -/
theorem save_flags_omitted_fails :
    run { save := true, list := false, dump := false, name := some "n",
          engine := none, args := ["p"] } true false (some [])
      = (some [], .error .patternEmpty)
    ∧ exit_code (run { save := true, list := false, dump := false, name := some "n",
                       engine := none, args := ["p"] } true false (some [])).snd = 1
    ∧ lookupFile [] "n.json" = none :=
  ⟨rfl, rfl, rfl⟩

/-- Claim C1 (amended): in save mode the flags argument is positionally
required.  With only the pattern as a single trailing argument, save fails
with "Pattern cannot be empty" (exit 1) and leaves the directory unchanged;
save succeeds creating name.json with exit 0 when two trailing arguments
(flags, then pattern) are supplied with a non-empty name and pattern and no
file of that name exists — the flags argument may be the empty string. -/
theorem save_flags_positionally_required
    (n p fl pt : String) (e : Option String) (dir : PatternDir) (writeOk pipe pipe2 : Bool)
    (hn : n ≠ "") (hpt : pt ≠ "")
    (habs : lookupFile (dir.getD []) (n ++ ".json") = none) :
    run { save := true, list := false, dump := false, name := some n,
          engine := e, args := [p] } writeOk pipe dir
      = (dir, .error .patternEmpty)
    ∧ GfError.patternEmpty.message = "Pattern cannot be empty"
    ∧ (run { save := true, list := false, dump := false, name := some n,
             engine := e, args := [fl, pt] } true pipe2 dir).snd = .ok .saved
    ∧ exit_code (run { save := true, list := false, dump := false, name := some n,
                       engine := e, args := [fl, pt] } true pipe2 dir).snd = 0
    ∧ (lookupFile ((run { save := true, list := false, dump := false, name := some n,
                          engine := e, args := [fl, pt] } true pipe2 dir).fst.getD [])
          (n ++ ".json")).isSome := by
  refine ⟨rfl, rfl, ?_, ?_, ?_⟩ <;>
    simp [run, save_pattern, hn, hpt, habs, exit_code,
          lookupFile_append_of_none _ _ _ habs]

/-- Witness for C1 (amended): under the name "c", a single trailing argument
fails while the two-argument form saves successfully. -/
theorem save_flags_positionally_required_witness :
    run { save := true, list := false, dump := false, name := some "c",
          engine := none, args := ["q"] } true false (some [])
      = (some [], .error .patternEmpty)
    ∧ (run { save := true, list := false, dump := false, name := some "c",
             engine := none, args := ["", "q"] } true false (some [])).snd = .ok .saved := by
  have h := save_flags_positionally_required "c" "q" "" "q" none (some [])
    true false false (by decide) (by decide) rfl
  exact ⟨h.1, h.2.2.1⟩

/-- Counterexample for C2: when the serialization write fails after the
create-exclusive open has already created the file, save reports an error
and a malformed pattern file is left on disk. -/
theorem save_write_failure_leaves_malformed_file :
    (save_pattern "n" "" "p" none false (some [])).snd = some .writeFailed
    ∧ lookupFile ((save_pattern "n" "" "p" none false (some [])).fst.getD []) "n.json"
        = some .malformed :=
  ⟨rfl, rfl⟩

/-- Claim C2 (amended): when save reports an error other than a failed
write (empty name, empty pattern, or the file already existing), the
directory state is unchanged — no file is created or modified; when the
write to the newly created file fails, save reports an error but leaves a
malformed name.json on disk. -/
theorem save_error_atomicity (name flags pat : String) (engine : Option String)
    (writeOk : Bool) (dir : PatternDir) (e : GfError)
    (herr : (save_pattern name flags pat engine writeOk dir).snd = some e) :
    (e ≠ .writeFailed → (save_pattern name flags pat engine writeOk dir).fst = dir)
    ∧ (e = .writeFailed →
        lookupFile ((save_pattern name flags pat engine writeOk dir).fst.getD [])
            (name ++ ".json") = some .malformed) := by
  by_cases hn : name = ""
  · have he : GfError.nameEmpty = e := by simpa [save_pattern, hn] using herr
    subst he
    exact ⟨fun _ => by simp [save_pattern, hn], fun h => nomatch h⟩
  · by_cases hp : pat = ""
    · have he : GfError.patternEmpty = e := by simpa [save_pattern, hn, hp] using herr
      subst he
      exact ⟨fun _ => by simp [save_pattern, hn, hp], fun h => nomatch h⟩
    · by_cases hex : (lookupFile (dir.getD []) (name ++ ".json")).isSome
      · have hdir : ∃ d, dir = some d := by
          cases dir with
          | none => simp [lookupFile] at hex
          | some d => exact ⟨d, rfl⟩
        obtain ⟨d, rfl⟩ := hdir
        simp only [Option.getD_some] at hex
        have he : GfError.alreadyExists (name ++ ".json") = e := by
          simpa [save_pattern, hn, hp, hex] using herr
        subst he
        exact ⟨fun _ => by simp [save_pattern, hn, hp, hex], fun h => nomatch h⟩
      · cases writeOk with
        | true => simp [save_pattern, hn, hp, hex] at herr
        | false =>
          have he : GfError.writeFailed = e := by
            simpa [save_pattern, hn, hp, hex] using herr
          subst he
          refine ⟨fun hne => absurd rfl hne, fun _ => ?_⟩
          have hnone : lookupFile (dir.getD []) (name ++ ".json") = none :=
            Option.not_isSome_iff_eq_none.mp hex
          simp [save_pattern, hn, hp, hex, lookupFile_append_of_none _ _ _ hnone]

/-- Witness for C2 (amended): at a concrete failed write, the malformed file
is observable. -/
theorem save_error_atomicity_witness :
    lookupFile ((save_pattern "w" "" "q" none false (some [])).fst.getD []) "w.json"
      = some .malformed :=
  (save_error_atomicity "w" "" "q" none false (some []) .writeFailed rfl).2 rfl

/-- Claim C3: saving under a fresh name succeeds; a second save under the
same name fails with AlreadyExists, and the on-disk content of name.json
after the failed second attempt equals the record written by the first
attempt — the directory state is entirely unchanged by the second save. -/
theorem save_twice_no_overwrite
    (n fl1 pt1 fl2 pt2 : String) (e1 e2 : Option String) (dir : PatternDir)
    (hn : n ≠ "") (hpt1 : pt1 ≠ "") (hpt2 : pt2 ≠ "")
    (habs : lookupFile (dir.getD []) (n ++ ".json") = none) :
    (save_pattern n fl1 pt1 e1 true dir).snd = none
    ∧ lookupFile ((save_pattern n fl1 pt1 e1 true dir).fst.getD []) (n ++ ".json")
        = some (.wellFormed { flags := if fl1 = "" then none else some fl1,
                              pattern := some pt1, patterns := none, engine := e1 })
    ∧ (save_pattern n fl2 pt2 e2 true (save_pattern n fl1 pt1 e1 true dir).fst).snd
        = some (.alreadyExists (n ++ ".json"))
    ∧ (save_pattern n fl2 pt2 e2 true (save_pattern n fl1 pt1 e1 true dir).fst).fst
        = (save_pattern n fl1 pt1 e1 true dir).fst := by
  have hlook := lookupFile_append_of_none (dir.getD []) (n ++ ".json")
    (.wellFormed { flags := if fl1 = "" then none else some fl1,
                   pattern := some pt1, patterns := none, engine := e1 }) habs
  refine ⟨?_, ?_, ?_, ?_⟩ <;>
    simp [save_pattern, hn, hpt1, hpt2, habs, hlook]

/-- Witness for C3: a concrete double save under the name "a". -/
theorem save_twice_no_overwrite_witness :
    (save_pattern "a" "-n" "y" none true
        (save_pattern "a" "-H" "x" none true (some [])).fst).snd
      = some (.alreadyExists "a.json") :=
  (save_twice_no_overwrite "a" "-H" "x" "-n" "y" none none (some [])
      (by decide) (by decide) (by decide) rfl).2.2.1

/-- Claim C7: in execute mode the child invocation's argument list is the
flags string split on whitespace (zero tokens when flags is absent or
empty), then the literal pattern string as one argument, then the files
argument — appended only if stdin is not a pipe, and defaulting to "." when
no trailing argument was given. -/
theorem execute_invocation_shape (cli : Cli) (w pipe : Bool) (dir : PatternDir)
    (n pstr : String) (pat : Pattern)
    (hlist : cli.list = false) (hsave : cli.save = false) (hdump : cli.dump = false)
    (hname : cli.name = some n)
    (hfile : lookupFile (dir.getD []) (n ++ ".json") = some (.wellFormed pat))
    (hres : resolve_pattern_str (n ++ ".json") pat = .ok pstr) :
    run cli w pipe dir
      = (dir, .ok (.used (.executed (pat.engine.getD "grep")
          (flagTokens pat.flags ++ [pstr]
            ++ (if pipe then [] else [cli.args.head?.getD "."])))))
    ∧ (pat.flags = none ∨ pat.flags = some "" → flagTokens pat.flags = [])
    ∧ (cli.args = [] → cli.args.head?.getD "." = ".") := by
  refine ⟨?_, ?_, ?_⟩
  · simp [run, run_use, hlist, hsave, hdump, hname, hfile, hres, build_args, Except.map]
  · rintro (h | h) <;> simp [flagTokens, h, splitWs, splitWsAux]
  · intro h; simp [h]

/-- Witness for C7: a concrete execute-mode run with two flag tokens, a
saved engine and no files argument. -/
theorem execute_invocation_shape_witness :
    run { save := false, list := false, dump := false, name := some "k",
          engine := none, args := [] } true false
        (some [("k.json", .wellFormed { flags := some "-n -r", pattern := some "pp",
                                        patterns := none, engine := some "rg" })])
      = (some [("k.json", .wellFormed { flags := some "-n -r", pattern := some "pp",
                                        patterns := none, engine := some "rg" })],
         .ok (.used (.executed "rg" ["-n", "-r", "pp", "."]))) := by
  have h := execute_invocation_shape
    { save := false, list := false, dump := false, name := some "k",
      engine := none, args := [] }
    true false
    (some [("k.json", .wellFormed { flags := some "-n -r", pattern := some "pp",
                                    patterns := none, engine := some "rg" })])
    "k" "pp"
    { flags := some "-n -r", pattern := some "pp", patterns := none, engine := some "rg" }
    rfl rfl rfl rfl rfl rfl
  exact h.1

/-- Claim C9: every record created through save satisfies the record
validity invariant by construction: its pattern field is present and
non-empty, its patterns field is absent, and an empty flags argument is
normalized to an absent flags field rather than stored as an empty
string. -/
theorem save_record_validity (name flags pt : String) (engine : Option String)
    (dir : PatternDir)
    (hn : name ≠ "") (hpt : pt ≠ "")
    (habs : lookupFile (dir.getD []) (name ++ ".json") = none) :
    ∃ r : Pattern,
      lookupFile ((save_pattern name flags pt engine true dir).fst.getD [])
          (name ++ ".json") = some (.wellFormed r)
      ∧ r.pattern = some pt ∧ pt ≠ ""
      ∧ r.patterns = none
      ∧ (flags = "" → r.flags = none)
      ∧ (flags ≠ "" → r.flags = some flags) := by
  refine ⟨{ flags := if flags = "" then none else some flags,
            pattern := some pt, patterns := none, engine := engine },
          ?_, rfl, hpt, rfl, ?_, ?_⟩
  · have hlook := lookupFile_append_of_none (dir.getD []) (name ++ ".json")
      (.wellFormed { flags := if flags = "" then none else some flags,
                     pattern := some pt, patterns := none, engine := engine }) habs
    simp [save_pattern, hn, hpt, habs, hlook]
  · intro h; simp [h]
  · intro h; simp [h]

/-- Witness for C9: saving with empty flags stores a record whose flags
field is absent and whose pattern is the saved pattern. -/
theorem save_record_validity_witness :
    ∃ r : Pattern,
      lookupFile ((save_pattern "m" "" "z" none true (some [])).fst.getD []) "m.json"
        = some (.wellFormed r)
      ∧ r.pattern = some "z" ∧ "z" ≠ ""
      ∧ r.patterns = none
      ∧ ("" = "" → r.flags = none)
      ∧ ("" ≠ "" → r.flags = some "") :=
  save_record_validity "m" "" "z" none (some []) (by decide) (by decide) rfl

/-- Claim C8: get_patterns returns the empty sequence (not an error) when the
pattern directory does not exist; otherwise it returns, for each directory
entry whose extension is json, the entry's base name with the extension
stripped, in directory-listing order. -/
theorem get_patterns_spec :
    get_patterns none = []
    ∧ ∀ entries, get_patterns (some entries)
        = entries.filterMap (fun e =>
            if (extSplit e.fst).snd = some "json" then some (extSplit e.fst).fst else none) :=
  ⟨rfl, fun entries => get_patterns_loop_eq_filterMap entries⟩

/-- Claim C10: in use mode the engine command-line flag has no effect on the
outcome — two runs that differ only in the value of the engine argument
produce the same result (same resolved engine, same invocation or dump
string). -/
theorem engine_flag_ignored_in_use (cli : Cli) (e1 e2 : Option String)
    (pipe : Bool) (dir : PatternDir) :
    run_use { cli with engine := e1 } pipe dir
      = run_use { cli with engine := e2 } pipe dir := rfl

end Gf
